import Mathlib

/-!
Shallow embedding of the calendar synchronization and caching subsystem of
the ai-calendar backend (src/backend/app), for checking the specification
claims about it.  The embedding follows the Python source:

* `CalendarService` (src/backend/app/service/calendar_service.py):
  the token-refresh guard `_make_google_api_request` /
  `_handle_google_api_response` / `_handle_401_error`, the sync entry point
  `get_all_user_calendar_events`, the single-event read `get_event_from_id`
  and the conditional update `update_event`.
* `CalendarRepo` (src/backend/app/repository/calendar_repo.py): MongoDB
  operations on the per-user `calendarevents` document, modelled as pure
  updates of an optional document value.
* `CalendarCacheService` (src/backend/app/service/calendar_cache_service.py):
  modelled twice — as always-available pure state for the sync-flow claims,
  and over an explicit failure-injecting Redis oracle for the fail-open claim.
* The webhook endpoint (src/backend/app/api/webhook.py) and the Celery task
  (src/backend/app/tasks/webhook_tasks.py).

Python exceptions are modelled with an `Except`-over-state monad in which
state updates made before a raise persist, as they do in the source.  The
remote provider is modelled as a script: a total function from the index of
the outbound HTTP attempt to the response received.
-/

namespace AICal

/-- A Google Calendar event resource as the subsystem reads and writes it:
provider id, etag, status (`confirmed` / `tentative` / `cancelled`) and a
summary standing in for the remaining payload fields. -/
structure Event where
  id : String
  etag : String
  status : String
  summary : String
  deriving DecidableEq

/-- Plain-text rendering of an event dict, used only when an event body ends
up inside the detail text of an HTTPException. -/
def Event.render (e : Event) : String :=
  "id: " ++ e.id ++ ", etag: " ++ e.etag ++ ", status: " ++ e.status ++
    ", summary: " ++ e.summary

/-- The JSON body attached to a provider HTTP response: an events.list page,
a single event resource, an error document (kept as rendered text), or a body
that `response.json()` fails to parse (e.g. an empty 304/410 body). -/
inductive ApiBody where
  | listBody (items : List Event) (nextSyncToken : Option String)
  | eventBody (e : Event)
  | errBody (s : String)
  | noJson
  deriving DecidableEq

/-- One scripted response of the remote provider: HTTP status plus body. -/
structure ApiResponse where
  status : Nat
  body : ApiBody
  deriving DecidableEq

/-- The dict value `_handle_google_api_response` hands back to its callers
(and the shape of the `data` field of the stored `calendarevents` document):
an events.list dict, a single-event dict, a parsed error dict, the
`No JSON response` marker dict built on a body that fails to parse, or the
fixed success dict returned for a 204 response. -/
inductive ResDict where
  | listRes (items : List Event) (nextSyncToken : Option String)
  | eventRes (e : Event)
  | errRes (s : String)
  | noJsonRes (code : Nat)
  | successMsg
  deriving DecidableEq

/-- Model of `res.get("status_code")`: only the `No JSON response` marker
dict carries a `status_code` key. -/
def ResDict.statusCode? : ResDict → Option Nat
  | .noJsonRes c => some c
  | _ => none

/-- Model of `res.get("items")`: only an events.list dict has an `items` key. -/
def ResDict.items? : ResDict → Option (List Event)
  | .listRes items _ => some items
  | _ => none

/-- Model of `res.get("nextSyncToken")` and of the `data["nextSyncToken"]`
key of the stored document. -/
def ResDict.syncToken? : ResDict → Option String
  | .listRes _ t => t
  | _ => none

/-- Model of `res.get("etag", "")` on the dict `update_event` reads its
If-Match header from. -/
def ResDict.etagOrEmpty : ResDict → String
  | .eventRes e => e.etag
  | _ => ""

/-- Value of the `status` key a dict already carries, if any: a single-event
dict has the event status, the 204 success dict has `success`.  Used to model
`dict(\x7b"status": tag\x7d, **res)`, where an existing `status` key of `res`
overwrites the tag. -/
def ResDict.statusKey? : ResDict → Option String
  | .eventRes e => some e.status
  | .successMsg => some "success"
  | _ => none

/-- Concatenation of event renderings for list bodies. -/
def renderEvents : List Event → String
  | [] => ""
  | [e] => e.render
  | e :: rest => e.render ++ "; " ++ renderEvents rest

/-- Plain-text rendering of a response dict, modelling `str(detail)` inside
`str(HTTPException(status_code, detail))`.  Only substring searches for
`401` and `unauthorized` are ever performed on it. -/
def ResDict.render : ResDict → String
  | .listRes items t =>
      "items: [" ++ renderEvents items ++ "], nextSyncToken: " ++
        (match t with | some s => s | none => "missing")
  | .eventRes e => e.render
  | .errRes s => s
  | .noJsonRes c => "message: No JSON response, status_code: " ++ toString c
  | .successMsg => "status: success, message: Operation completed successfully"

/-- Model of `await response.json()` with the fallback dict built in
`_handle_google_api_response` when parsing fails. -/
def parseBody (r : ApiResponse) : ResDict :=
  match r.body with
  | .listBody items t => .listRes items t
  | .eventBody e => .eventRes e
  | .errBody s => .errRes s
  | .noJson => .noJsonRes r.status

/-- A raised Python exception: `fastapi.HTTPException` (status code and
detail text), `ValueError`, or any other exception kept as its message. -/
inductive PyErr where
  | http (code : Nat) (detail : String)
  | valueErr (msg : String)
  | exc (msg : String)
  deriving DecidableEq

/-- Model of `str(e)`.  Starlette renders an HTTPException as
`f"\x7bstatus_code\x7d: \x7bdetail\x7d"`. -/
def PyErr.text : PyErr → String
  | .http c d => toString c ++ ": " ++ d
  | .valueErr m => m
  | .exc m => m

/-- Boolean prefix test on character lists. -/
def charsIsPre : List Char → List Char → Bool
  | [], _ => true
  | _ :: _, [] => false
  | a :: as, b :: bs => a == b && charsIsPre as bs

/-- Boolean infix (substring) test on character lists. -/
def charsIsSub (needle : List Char) : List Char → Bool
  | [] => charsIsPre needle []
  | c :: rest => charsIsPre needle (c :: rest) || charsIsSub needle rest

/-- Substring test on strings, modelling the Python `in` operator. -/
def strContains (hay needle : String) : Bool :=
  charsIsSub needle.toList hay.toList

/-- ASCII lowercase of one character. -/
def charLower (c : Char) : Char :=
  if 'A' ≤ c ∧ c ≤ 'Z' then Char.ofNat (c.toNat + 32) else c

/-- ASCII lowercase of a string, modelling `str.lower()` on the texts that
occur here. -/
def strLower (s : String) : String := String.mk (s.toList.map charLower)

/-- Model of the guard `"401" in str(e) or "unauthorized" in str(e).lower()`
in the `except` clause of `_make_google_api_request`. -/
def matches401Text (e : PyErr) : Bool :=
  strContains e.text "401" || strContains (strLower e.text) "unauthorized"

/-- Model of Python truthiness for an optional string header / token value:
`None` and the empty string are falsy. -/
def truthyOptStr : Option String → Bool
  | none => false
  | some s => !s.isEmpty

/-- State-and-exception monad: a computation transforms the state and either
returns a value or raises.  State updates made before a raise persist, as
they do for Python side effects. -/
def StEx (σ : Type) (α : Type) : Type := σ → Except PyErr α × σ

instance (σ : Type) : Monad (StEx σ) where
  pure a := fun s => (Except.ok a, s)
  bind x f := fun s =>
    match x s with
    | (Except.ok a, s1) => f a s1
    | (Except.error e, s1) => (Except.error e, s1)

/-- Raise an exception, keeping the state. -/
def StEx.throw {σ α : Type} (e : PyErr) : StEx σ α := fun s => (Except.error e, s)

/-- Model of a Python `try ... except` block: on a raise in the body the
handler runs from the state at the raise; an exception raised inside the
handler itself propagates. -/
def StEx.tryCatch {σ α : Type} (x : StEx σ α) (h : PyErr → StEx σ α) : StEx σ α :=
  fun s =>
    match x s with
    | (Except.ok a, s1) => (Except.ok a, s1)
    | (Except.error e, s1) => h e s1

/-- Read the state. -/
def StEx.get {σ : Type} : StEx σ σ := fun s => (Except.ok s, s)

/-- Update the state. -/
def StEx.modify {σ : Type} (f : σ → σ) : StEx σ Unit := fun s => (Except.ok (), f s)

/-- Per-user cache contents (the Redis keys of `CalendarCacheService` for one
user): the cached full events dict, the per-event entries, and the cached
sync token.  In this sync-flow model the Redis backend is available; backend
failures are modelled separately for the fail-open claim. -/
structure CacheSt where
  events : Option ResDict
  single : List (String × Event)
  syncToken : Option String
  deriving DecidableEq

/-- The world a sync-flow operation runs in: the scripted remote provider
(response per outbound attempt index), the count of attempts made, the count
of token refreshes performed, the `data` field of the user's MongoDB
`calendarevents` document (absent before the first full sync), and the cache
contents. -/
structure W where
  remote : Nat → ApiResponse
  attempts : Nat
  refreshes : Nat
  store : Option ResDict
  cache : CacheSt

/-- Monad of the sync-flow model. -/
abbrev M (α : Type) : Type := StEx W α

/-- Perform one outbound HTTP attempt: the scripted response for the current
attempt index is received and the attempt counter advances. -/
def httpAttempt : M ApiResponse := fun s =>
  (Except.ok (s.remote s.attempts), { s with attempts := s.attempts + 1 })

namespace GoogleOauthService

/-- Model of `GoogleOauthService.refresh_access_token`: obtains a fresh
access token from the OAuth endpoint and persists it through
`google_oauth_repo.update_user_success`.  The model counts invocations. -/
def refresh_access_token : M Unit := fun s =>
  (Except.ok (), { s with refreshes := s.refreshes + 1 })

end GoogleOauthService

/-- Replace every stored item whose id matches the update, leaving the rest:
the effect of one `UpdateOne` of `CalendarRepo.update_items` (filter on
`data.items.id`, `$set data.items.$[elem]` with an `elem.id` array filter).
No element is inserted or removed. -/
def replaceById (u : Event) (items : List Event) : List Event :=
  items.map fun e => if e.id = u.id then u else e

/-- Replace the first stored item whose id matches (the `$` positional
operator of `CalendarRepo.update_item`). -/
def setFirstById (u : Event) : List Event → List Event
  | [] => []
  | e :: rest => if e.id = u.id then u :: rest else e :: setFirstById u rest

/-- Apply a MongoDB update on the `data.items` path: it acts only on a
document whose `data` actually has an `items` array. -/
def ResDict.mapItems (f : List Event → List Event) : ResDict → ResDict
  | .listRes items t => .listRes (f items) t
  | r => r

/-- Model of `$set data.nextSyncToken`.  Only list-shaped documents (the ones
occurring in the modelled flows) are representable; others are unchanged. -/
def ResDict.setSyncToken (r : ResDict) (t : String) : ResDict :=
  match r with
  | .listRes items _ => .listRes items (some t)
  | r => r

/-- Linear search of the stored items array by event id. -/
def findById (eid : String) : List Event → Option Event
  | [] => none
  | e :: rest => if e.id = eid then some e else findById eid rest

namespace CalendarRepo

/-- Model of `get_access_and_email`: the modelled user always exists, with a
fixed (email, access token) pair. -/
def get_access_and_email : M (String × String) :=
  pure ("user@example.com", "access-token")

/-- Model of `get_synctoken_if_exists`: `None` when the user has no
`calendarevents` document, otherwise `res["data"]["nextSyncToken"]` (a
KeyError when the stored data lacks the key). -/
def get_synctoken_if_exists : M (Option String) := fun s =>
  match s.store with
  | none => (Except.ok none, s)
  | some d =>
      match d.syncToken? with
      | some t => (Except.ok (some t), s)
      | none => (Except.error (PyErr.exc "KeyError: nextSyncToken"), s)

/-- Model of `insert_events`: `replace_one` with upsert.  When the document
exists and already equals the new data, MongoDB reports no modification and
no upsert, and the source raises ValueError. -/
def insert_events (data : ResDict) : M Unit := fun s =>
  match s.store with
  | some d =>
      if d = data then
        (Except.error (PyErr.valueErr "event insert made no changes and no upsert"), s)
      else
        (Except.ok (), { s with store := some data })
  | none => (Except.ok (), { s with store := some data })

/-- Model of `update_synctoken`: `$set data.nextSyncToken` on the user's
document, a no-op when the document is absent. -/
def update_synctoken (t : String) : M Unit :=
  StEx.modify fun s => { s with store := s.store.map (fun d => d.setSyncToken t) }

/-- Model of `update_items`: one bulk write of per-item `UpdateOne`
operations, each replacing the matching stored items in place (see
`replaceById`); items not already present are not inserted and no item is
removed. -/
def update_items (items : List Event) : M Unit :=
  StEx.modify fun s =>
    { s with store := s.store.map fun d =>
        d.mapItems (fun cur => items.foldl (fun acc u => replaceById u acc) cur) }

/-- Model of `update_item`: a single `UpdateOne` replacing the first stored
item whose id equals `data["id"]`; a KeyError if the dict has no id. -/
def update_item (data : ResDict) : M Unit := fun s =>
  match data with
  | .eventRes e =>
      (Except.ok (), { s with store := s.store.map fun d => d.mapItems (setFirstById e) })
  | _ => (Except.error (PyErr.exc "KeyError: id"), s)

/-- Model of `get_all_event`: the stored `data` dict, or a ValueError when
the user has no `calendarevents` document. -/
def get_all_event : M ResDict := fun s =>
  match s.store with
  | none =>
      (Except.error (PyErr.valueErr "data not found, repeat the request without parameters"), s)
  | some d => (Except.ok d, s)

/-- Model of `get_etag_from_id`: scans `res["data"]["items"]` for the event
and returns its etag (the Python source also returns the index, unused by
callers).  ValueError when the document or the event is absent. -/
def get_etag_from_id (event_id : String) : M String := fun s =>
  match s.store with
  | none => (Except.error (PyErr.valueErr "no matching events found, fetch all events first"), s)
  | some d =>
      match d.items? with
      | none => (Except.error (PyErr.exc "KeyError: items"), s)
      | some items =>
          match findById event_id items with
          | some e => (Except.ok e.etag, s)
          | none => (Except.error (PyErr.valueErr "event not found, refresh events"), s)

/-- Model of `CalendarRepo.get_event_from_id`: the stored item with the given
id; ValueError when the document or the event is absent. -/
def get_event_from_id (event_id : String) : M Event := fun s =>
  match s.store with
  | none => (Except.error (PyErr.valueErr "no matching events found, fetch all events first"), s)
  | some d =>
      match d.items? with
      | none => (Except.error (PyErr.exc "KeyError: items"), s)
      | some items =>
          match findById event_id items with
          | some e => (Except.ok e, s)
          | none => (Except.error (PyErr.valueErr "event not found, refresh events"), s)

end CalendarRepo

/-- Insert-or-replace into the per-event cache key map. -/
def assocSet (eid : String) (e : Event) : List (String × Event) → List (String × Event)
  | [] => [(eid, e)]
  | (k, v) :: rest => if k = eid then (k, e) :: rest else (k, v) :: assocSet eid e rest

/-- Lookup in the per-event cache key map. -/
def assocGet (eid : String) : List (String × Event) → Option Event
  | [] => none
  | (k, v) :: rest => if k = eid then some v else assocGet eid rest

/-- Deletion from the per-event cache key map. -/
def assocErase (eid : String) : List (String × Event) → List (String × Event)
  | [] => []
  | (k, v) :: rest => if k = eid then assocErase eid rest else (k, v) :: assocErase eid rest

/-- Replace the first list entry with a matching id, appending the event when
no entry matches: the for/break/else loop of `update_event_in_cache`. -/
def patchOrAppend (x : Event) : List Event → List Event
  | [] => [x]
  | e :: rest => if e.id = x.id then x :: rest else e :: patchOrAppend x rest

namespace CalendarCacheService

/-- Model of `get_user_events` with the backend available. -/
def get_user_events : M (Option ResDict) := fun s => (Except.ok s.cache.events, s)

/-- Model of `cache_user_events`: stores the full events dict and fans each
contained event out into its individual cache entry. -/
def cache_user_events (events_data : ResDict) : M Bool := fun s =>
  (Except.ok true,
    { s with cache :=
        { s.cache with
            events := some events_data
            single :=
              match events_data.items? with
              | some items => items.foldl (fun m e => assocSet e.id e m) s.cache.single
              | none => s.cache.single } })

/-- Model of `cache_single_event`. -/
def cache_single_event (e : Event) : M Bool := fun s =>
  (Except.ok true,
    { s with cache := { s.cache with single := assocSet e.id e s.cache.single } })

/-- Model of `get_single_event`. -/
def get_single_event (event_id : String) : M (Option Event) := fun s =>
  (Except.ok (assocGet event_id s.cache.single), s)

/-- Model of `update_event_in_cache`: a dict without an `id` key is refused
with `False`; otherwise the individual entry is refreshed and the event is
patched into the cached full list when that list is cached. -/
def update_event_in_cache (event_data : ResDict) : M Bool := fun s =>
  match event_data with
  | .eventRes e =>
      (Except.ok true,
        { s with cache :=
            { s.cache with
                single := assocSet e.id e s.cache.single
                events := s.cache.events.map (fun r => r.mapItems (patchOrAppend e)) } })
  | _ => (Except.ok false, s)

/-- Model of `remove_event_from_cache`: drop the individual entry, and filter
the event out of the cached full list when that list is cached. -/
def remove_event_from_cache (event_id : String) : M Bool := fun s =>
  (Except.ok true,
    { s with cache :=
        { s.cache with
            single := assocErase event_id s.cache.single
            events := s.cache.events.map
              (fun r => r.mapItems (fun items => items.filter (fun e => e.id != event_id))) } })

/-- Model of `cache_sync_token`. -/
def cache_sync_token (t : String) : M Bool := fun s =>
  (Except.ok true, { s with cache := { s.cache with syncToken := some t } })

/-- Model of `get_sync_token`. -/
def get_sync_token : M (Option String) := fun s => (Except.ok s.cache.syncToken, s)

end CalendarCacheService

namespace CalendarService

/-- Terminal authentication failure raised by `_handle_401_error` once
`retry_count >= 1`. -/
def authFailed : PyErr :=
  PyErr.http 401 "Authentication failed after token refresh attempt"

/-- Model of `_handle_401_error`.  `request_again` stands for the recursive
call `self._make_google_api_request(..., retry_count + 1)` with the same
request arguments; it is passed explicitly so that the mutual recursion of
the source is structurally bounded by the fuel of
`_make_google_api_request`. -/
def _handle_401_error (request_again : Nat → M ResDict) (retry_count : Nat) :
    M ResDict :=
  if retry_count ≥ 1 then
    StEx.throw authFailed
  else do
    GoogleOauthService.refresh_access_token
    request_again (retry_count + 1)

/-- Model of `_handle_google_api_response`: 401 goes to the refresh handler,
204 becomes the fixed success dict, any other response is parsed (with the
`No JSON response` fallback) and raised as an HTTPException unless the status
is 200, 201 or 204. -/
def _handle_google_api_response (request_again : Nat → M ResDict)
    (response : ApiResponse) (retry_count : Nat) : M ResDict :=
  if response.status = 401 then
    _handle_401_error request_again retry_count
  else if response.status = 204 then
    pure ResDict.successMsg
  else
    let res := parseBody response
    if response.status = 200 ∨ response.status = 201 ∨ response.status = 204 then
      pure res
    else
      StEx.throw (PyErr.http response.status res.render)

/-- Model of `_make_google_api_request`.  The try block reads the user's
access token, performs the outbound attempt and processes the response; the
except clause re-enters the 401 handler whenever the raised exception's text
contains `401` or `unauthorized`.  The Python recursion depth is bounded by
the `retry_count >= 1` guard; the explicit fuel only serves Lean totality and
every theorem below uses a fuel large enough that the exhaustion branch is
never reached. -/
def _make_google_api_request : Nat → Nat → M ResDict
  | 0, _ =>
      StEx.throw (PyErr.exc "RecursionError: maximum recursion depth exceeded")
  | fuel + 1, retry_count =>
      StEx.tryCatch
        (do
          let _email_and_access ← CalendarRepo.get_access_and_email
          let response ← httpAttempt
          _handle_google_api_response
            (fun rc => _make_google_api_request fuel rc) response retry_count)
        (fun e =>
          if matches401Text e then
            _handle_401_error (fun rc => _make_google_api_request fuel rc) retry_count
          else
            StEx.throw e)

/-- Model of `dict(\x7b"status": tag\x7d, **res)`: the keyword expansion of
`res` overwrites the tag whenever `res` itself carries a `status` key (every
Google event dict does). -/
def tagStatus (tag : String) (r : ResDict) : String :=
  match r.statusKey? with
  | some s => s
  | none => tag

/-- Model of `get_event_from_id`: cache hit short-circuits; otherwise a
conditional GET (If-None-Match from the stored etag) is made, a
`status_code == 304` marker returns the stored copy and re-caches it, and any
other result is upserted into store and cache.  The result pairs the
effective `status` entry of the returned dict with the dict itself. -/
def get_event_from_id (fuel : Nat) (event_id : String) : M (String × ResDict) :=
  StEx.tryCatch
    (do
      let cached ← CalendarCacheService.get_single_event event_id
      match cached with
      | some ev =>
          pure (tagStatus "from_cache" (ResDict.eventRes ev), ResDict.eventRes ev)
      | none => do
          let _ ← CalendarRepo.get_access_and_email
          let _etag ← CalendarRepo.get_etag_from_id event_id
          let res ← _make_google_api_request fuel 0
          if res.statusCode? = some 304 then do
            let event_data ← CalendarRepo.get_event_from_id event_id
            let _ ← CalendarCacheService.cache_single_event event_data
            pure (tagStatus "not changed" (ResDict.eventRes event_data),
              ResDict.eventRes event_data)
          else do
            CalendarRepo.update_item res
            let _ ← CalendarCacheService.update_event_in_cache res
            pure (tagStatus "updated" res, res))
    (fun e =>
      match e with
      | PyErr.valueErr m => StEx.throw (PyErr.http 404 m)
      | _ => StEx.throw e)

/-- Per-item cache maintenance of the incremental-sync loop: cancelled items
are removed from the cache, every other item is upserted into it. -/
def cacheSyncItem (item : Event) : M Unit :=
  if item.status = "cancelled" then do
    let _ ← CalendarCacheService.remove_event_from_cache item.id
    pure ()
  else do
    let _ ← CalendarCacheService.update_event_in_cache (ResDict.eventRes item)
    pure ()

/-- The `for item in res["items"]` loop of `get_all_user_calendar_events`. -/
def forItems : List Event → M Unit
  | [] => pure ()
  | item :: rest => do
      cacheSyncItem item
      forItems rest

/-- Model of `get_all_user_calendar_events`.  The fuel bounds the recursive
self-call of the `status_code == 410` branch for Lean totality; theorems use
a fuel large enough that exhaustion is never reached. -/
def get_all_user_calendar_events : Nat → Bool → Bool → M ResDict
  | 0, _, _ =>
      StEx.throw (PyErr.exc "RecursionError: maximum recursion depth exceeded")
  | fuel + 1, forceFullSync, fullResponse =>
      StEx.tryCatch
        (do
          let cached_events ←
            if forceFullSync then pure (none : Option ResDict)
            else CalendarCacheService.get_user_events
          match cached_events, fullResponse with
          | some ce, true => pure ce
          | _, _ => do
              let _ ← CalendarRepo.get_access_and_email
              let tokenCache ← CalendarCacheService.get_sync_token
              let tokenDb ←
                if truthyOptStr tokenCache then pure tokenCache
                else CalendarRepo.get_synctoken_if_exists
              let token := if forceFullSync then none else tokenDb
              let res ← _make_google_api_request fuel 0
              if res.statusCode? = some 410 then
                get_all_user_calendar_events fuel true fullResponse
              else do
                (match res.syncToken? with
                  | some t =>
                    if t.isEmpty then pure ()
                    else do
                      CalendarRepo.update_synctoken t
                      let _ ← CalendarCacheService.cache_sync_token t
                      pure ()
                  | none => pure ())
                (if truthyOptStr token then pure ()
                  else do
                    CalendarRepo.insert_events res
                    let _ ← CalendarCacheService.cache_user_events res
                    pure ())
                (match res.items?, truthyOptStr token with
                  | some items, true =>
                    if items.isEmpty then pure ()
                    else do
                      CalendarRepo.update_items items
                      forItems items
                  | _, _ => pure ())
                if fullResponse then
                  if truthyOptStr token then do
                    let db_events ← CalendarRepo.get_all_event
                    let _ ← CalendarCacheService.cache_user_events db_events
                    pure db_events
                  else
                    pure res
                else
                  pure res)
        (fun e =>
          match e with
          | PyErr.valueErr m => StEx.throw (PyErr.http 404 m)
          | _ => StEx.throw e)

/-- Model of `UpdateEventRequest.model_dump(exclude_none=True)`: the
(field, value) pairs actually provided. -/
abbrev UpdatePayload := List (String × String)

/-- Result record of a successful `update_event`. -/
structure EventUpdateResponse where
  status : String
  event_id : String
  updated_fields : List String
  message : String
  deriving DecidableEq

/-- Comma join used in the success message of `update_event`. -/
def joinComma : List String → String
  | [] => ""
  | [f] => f
  | f :: rest => f ++ ", " ++ joinComma rest

/-- Model of `update_event`: fetch the current record through
`get_event_from_id` for its etag, require a non-empty payload, issue the
conditional PATCH, branch on `status_code` markers 412/404, then upsert store
and cache.  Its ValueError handler answers 400; every other exception —
including the HTTPExceptions raised inside the try block itself — is
converted to a 500 `Failed to update event` error. -/
def update_event (fuel : Nat) (event_id : String) (update_payload : UpdatePayload) :
    M EventUpdateResponse :=
  StEx.tryCatch
    (do
      let _ ← CalendarRepo.get_access_and_email
      let current_event ← get_event_from_id fuel event_id
      if update_payload.isEmpty then
        StEx.throw (PyErr.http 400 "No fields provided for update")
      else do
        let updated_fields := update_payload.map Prod.fst
        let _ifMatch := current_event.2.etagOrEmpty
        let res ← _make_google_api_request fuel 0
        if res.statusCode? = some 412 then
          StEx.throw (PyErr.http 409
            "Event was modified by another process. Please refresh and try again.")
        else if res.statusCode? = some 404 then
          StEx.throw (PyErr.http 404 ("Event with ID " ++ event_id ++ " not found"))
        else do
          CalendarRepo.update_item res
          let _ ← CalendarCacheService.update_event_in_cache res
          pure { status := "success", event_id := event_id,
                 updated_fields := updated_fields,
                 message := "Event updated successfully. Modified fields: " ++
                   joinComma updated_fields })
    (fun e =>
      match e with
      | PyErr.valueErr m => StEx.throw (PyErr.http 400 m)
      | _ => StEx.throw (PyErr.http 500 ("Failed to update event: " ++ e.text)))

end CalendarService

/-- The stored event items of a world, when the user's document exists and
its data carries an `items` array. -/
def storeItems (s : W) : Option (List Event) := s.store.bind ResDict.items?

/-- The ids of the stored event items. -/
def storeIds (s : W) : Option (List String) :=
  (storeItems s).map (List.map Event.id)

/-- Redis keys of `CalendarCacheService`, one constructor per key pattern. -/
inductive RKey where
  | eventsKey (uid : String)
  | eventKey (uid eid : String)
  | syncTokenKey (uid : String)
  | calendarsKey (uid : String)
  deriving DecidableEq

/-- Serialized values held under the cache keys. -/
inductive CVal where
  | evData (r : ResDict)
  | ev (e : Event)
  | tok (t : String)
  deriving DecidableEq

/-- World of the failure-injecting Redis model: the key-value contents, an
oracle choosing which primitive Redis calls raise (by call index), and the
count of primitive calls made. -/
structure RedisW where
  kv : List (RKey × CVal)
  failAt : Nat → Bool
  calls : Nat

/-- Monad of the Redis cache model. -/
abbrev MC (α : Type) : Type := StEx RedisW α

/-- Lookup in the key-value contents. -/
def kvGet (k : RKey) : List (RKey × CVal) → Option CVal
  | [] => none
  | (k1, v) :: rest => if k1 = k then some v else kvGet k rest

/-- Insert-or-replace in the key-value contents. -/
def kvSet (k : RKey) (v : CVal) : List (RKey × CVal) → List (RKey × CVal)
  | [] => [(k, v)]
  | (k1, v1) :: rest => if k1 = k then (k1, v) :: rest else (k1, v1) :: kvSet k v rest

/-- Deletion from the key-value contents. -/
def kvDel (k : RKey) : List (RKey × CVal) → List (RKey × CVal)
  | [] => []
  | (k1, v1) :: rest => if k1 = k then kvDel k rest else (k1, v1) :: kvDel k rest

/-- The keys matching the per-event wildcard pattern of one user. -/
def kvUserEventKeys (uid : String) : List (RKey × CVal) → List RKey
  | [] => []
  | (RKey.eventKey u e, _) :: rest =>
      if u = uid then RKey.eventKey u e :: kvUserEventKeys uid rest
      else kvUserEventKeys uid rest
  | _ :: rest => kvUserEventKeys uid rest

/-- One primitive Redis call: it raises when the failure oracle selects the
current call index, and otherwise acts on the key-value contents. -/
def rstep {α : Type} (act : RedisW → α × RedisW) : MC α := fun s =>
  if s.failAt s.calls then
    (Except.error (PyErr.exc "redis connection error"), { s with calls := s.calls + 1 })
  else
    let (a, s1) := act { s with calls := s.calls + 1 }
    (Except.ok a, s1)

/-- Primitive `client.get`. -/
def rget (k : RKey) : MC (Option CVal) := rstep fun s => (kvGet k s.kv, s)

/-- Primitive `client.setex` (the fixed TTL is not modelled). -/
def rsetex (k : RKey) (v : CVal) : MC Unit :=
  rstep fun s => ((), { s with kv := kvSet k v s.kv })

/-- Primitive `client.delete` of one key. -/
def rdel (k : RKey) : MC Unit :=
  rstep fun s => ((), { s with kv := kvDel k s.kv })

/-- Primitive `client.keys` over the per-event wildcard pattern. -/
def rkeys (uid : String) : MC (List RKey) :=
  rstep fun s => (kvUserEventKeys uid s.kv, s)

/-- Primitive `client.delete(*keys)` of a key batch. -/
def rdelAll (ks : List RKey) : MC Unit :=
  rstep fun s => ((), { s with kv := ks.foldl (fun m k => kvDel k m) s.kv })

namespace RedisModel

/-- The pipelined `setex` sequence of `_cache_individual_events`. -/
def forSetex (uid : String) : List Event → MC Unit
  | [] => pure ()
  | e :: rest => do
      rsetex (RKey.eventKey uid e.id) (CVal.ev e)
      forSetex uid rest

/-- Model of `_cache_individual_events`: its own try block swallows all
errors and returns nothing. -/
def _cache_individual_events (uid : String) (events : List Event) : MC Unit :=
  StEx.tryCatch (forSetex uid events) (fun _ => pure ())

/-- Model of `cache_user_events` over the failure-injecting backend. -/
def cache_user_events (uid : String) (events_data : ResDict) : MC Bool :=
  StEx.tryCatch
    (do
      rsetex (RKey.eventsKey uid) (CVal.evData events_data)
      (match events_data.items? with
        | some items => _cache_individual_events uid items
        | none => pure ())
      pure true)
    (fun _ => pure false)

/-- Model of `get_user_events` over the failure-injecting backend. -/
def get_user_events (uid : String) : MC (Option ResDict) :=
  StEx.tryCatch
    (do
      let c ← rget (RKey.eventsKey uid)
      match c with
      | some (CVal.evData r) => pure (some r)
      | some _ => pure none
      | none => pure none)
    (fun _ => pure none)

/-- Model of `cache_single_event`: a dict without an `id` key is refused with
`False` before any write. -/
def cache_single_event (uid : String) (event_data : ResDict) : MC Bool :=
  StEx.tryCatch
    (match event_data with
      | ResDict.eventRes e => do
          rsetex (RKey.eventKey uid e.id) (CVal.ev e)
          pure true
      | _ => pure false)
    (fun _ => pure false)

/-- Model of `get_single_event` over the failure-injecting backend. -/
def get_single_event (uid eid : String) : MC (Option Event) :=
  StEx.tryCatch
    (do
      let c ← rget (RKey.eventKey uid eid)
      match c with
      | some (CVal.ev e) => pure (some e)
      | some _ => pure none
      | none => pure none)
    (fun _ => pure none)

/-- Model of `update_event_in_cache` over the failure-injecting backend:
refresh the individual entry through `cache_single_event`, then patch the
cached full list when it is present and has an `items` key. -/
def update_event_in_cache (uid : String) (event_data : ResDict) : MC Bool :=
  StEx.tryCatch
    (match event_data with
      | ResDict.eventRes e => do
          let _ ← cache_single_event uid event_data
          let cached ← rget (RKey.eventsKey uid)
          (match cached with
            | some (CVal.evData r) =>
                (match r.items? with
                  | some _ =>
                      rsetex (RKey.eventsKey uid)
                        (CVal.evData (r.mapItems (patchOrAppend e)))
                  | none => pure ())
            | _ => pure ())
          pure true
      | _ => pure false)
    (fun _ => pure false)

/-- Model of `remove_event_from_cache` over the failure-injecting backend. -/
def remove_event_from_cache (uid eid : String) : MC Bool :=
  StEx.tryCatch
    (do
      rdel (RKey.eventKey uid eid)
      let cached ← rget (RKey.eventsKey uid)
      (match cached with
        | some (CVal.evData r) =>
            (match r.items? with
              | some _ =>
                  rsetex (RKey.eventsKey uid)
                    (CVal.evData (r.mapItems (fun items =>
                      items.filter (fun e => e.id != eid))))
              | none => pure ())
        | _ => pure ())
      pure true)
    (fun _ => pure false)

/-- Model of `cache_sync_token` over the failure-injecting backend. -/
def cache_sync_token (uid t : String) : MC Bool :=
  StEx.tryCatch
    (do
      rsetex (RKey.syncTokenKey uid) (CVal.tok t)
      pure true)
    (fun _ => pure false)

/-- Model of `get_sync_token` over the failure-injecting backend. -/
def get_sync_token (uid : String) : MC (Option String) :=
  StEx.tryCatch
    (do
      let c ← rget (RKey.syncTokenKey uid)
      match c with
      | some (CVal.tok t) => pure (some t)
      | some _ => pure none
      | none => pure none)
    (fun _ => pure none)

/-- Model of `cache_user_calendar_list` over the failure-injecting backend. -/
def cache_user_calendar_list (uid : String) (calendar_data : ResDict) : MC Bool :=
  StEx.tryCatch
    (do
      rsetex (RKey.calendarsKey uid) (CVal.evData calendar_data)
      pure true)
    (fun _ => pure false)

/-- Model of `get_user_calendar_list` over the failure-injecting backend. -/
def get_user_calendar_list (uid : String) : MC (Option ResDict) :=
  StEx.tryCatch
    (do
      let c ← rget (RKey.calendarsKey uid)
      match c with
      | some (CVal.evData r) => pure (some r)
      | some _ => pure none
      | none => pure none)
    (fun _ => pure none)

/-- Model of `invalidate_user_cache`: the three direct keys are deleted, the
per-event wildcard pattern is scanned and its keys deleted when any exist, in
the pattern order of the source. -/
def invalidate_user_cache (uid : String) : MC Bool :=
  StEx.tryCatch
    (do
      rdel (RKey.eventsKey uid)
      let ks ← rkeys uid
      (if ks.isEmpty then pure () else rdelAll ks)
      rdel (RKey.syncTokenKey uid)
      rdel (RKey.calendarsKey uid)
      pure true)
    (fun _ => pure false)

end RedisModel

/-- Answer dict of the webhook receipt endpoint. -/
inductive WebhookAnswer where
  | ignoredA (reason : String)
  | acceptedA (channel_id : String)
  deriving DecidableEq

namespace Webhook

/-- Model of the `POST /webhook/google-calendar` endpoint
(src/backend/app/api/webhook.py): the required-header check raises
HTTPException(400) inside the try block, unrecognized resource states answer
`ignored`, recognized ones queue `process_calendar_webhook` (the queued
(channel, state) pair is returned alongside the answer) — and the blanket
`except Exception` converts any exception raised inside the try block, the
400 included, into an HTTPException(500). -/
def google_calendar_webhook (x_goog_channel_id x_goog_resource_state : Option String) :
    Except PyErr (WebhookAnswer × Option (String × String)) :=
  let body : Except PyErr (WebhookAnswer × Option (String × String)) :=
    if !truthyOptStr x_goog_channel_id || !truthyOptStr x_goog_resource_state then
      Except.error (PyErr.http 400 "Missing required headers")
    else
      let chan := x_goog_channel_id.getD ""
      let st := x_goog_resource_state.getD ""
      if !(st == "exists" || st == "sync") then
        Except.ok (WebhookAnswer.ignoredA ("Resource state " ++ st ++ " not processed"), none)
      else
        Except.ok (WebhookAnswer.acceptedA chan, some (chan, st))
  match body with
  | Except.ok r => Except.ok r
  | Except.error e =>
      Except.error (PyErr.http 500 ("Webhook processing failed: " ++ e.text))

end Webhook

/-- Method names the `CalendarService` class defines
(src/backend/app/service/calendar_service.py; the class body repeats several
definitions, each listed once). -/
def calendarServiceMethods : List String :=
  ["_make_google_api_request", "_handle_google_api_response", "_handle_401_error",
   "get_calendar_list", "update_user_scope", "get_all_user_calendar_events",
   "get_event_from_id", "setup_calendar_webhook", "unsubscribe_calendar_webhook",
   "update_event_from_webhook", "update_event", "bulk_update_events"]

/-- Attribute lookup on a `CalendarService` instance: AttributeError when the
class defines no such method. -/
def pyGetattr (name : String) : Except PyErr String :=
  if calendarServiceMethods.contains name then Except.ok name
  else
    Except.error (PyErr.exc
      ("AttributeError: CalendarService object has no attribute " ++ name))

/-- Outcome value of the Celery webhook task body. -/
inductive TaskRes where
  | ignoredT (reason : String)
  | successT (user_id channel_id : String)
  deriving DecidableEq

namespace WebhookTasks

/-- Model of `_process_webhook_async`
(src/backend/app/tasks/webhook_tasks.py): its first statement resolves
`calendar_service.get_user_by_channel_id`, an attribute `CalendarService`
does not define (see `calendarServiceMethods`), so the coroutine raises
AttributeError before any sync work; the rest of the coroutine — resolving
the user, `handle_calendar_change_notification`, the cache invalidation —
is unreachable, which the model marks with a distinct error value. -/
def _process_webhook_async (channel_id : String) : Except PyErr TaskRes := do
  let _method ← pyGetattr "get_user_by_channel_id"
  let _handler ← pyGetattr "handle_calendar_change_notification"
  Except.error (PyErr.exc ("model: unreachable continuation for channel " ++ channel_id))

/-- Result of one Celery task invocation: the Python return value (`none`
models the body falling through and returning None) and whether the task
raised `self.retry`. -/
structure TaskRun where
  result : Option TaskRes
  retryRaised : Bool
  deriving DecidableEq

/-- Model of `process_calendar_webhook` on its first delivery.  Unrecognized
resource states answer `ignored`.  Otherwise the coroutine runs under an
inner bare `except:` that swallows any exception from
`loop.run_until_complete`, installs a fresh event loop and lets the outer try
block end — so the task returns None, and the outer except clause (the only
place `self.retry` is raised) is never reached on this path. -/
def process_calendar_webhook (channel_id resource_state : String) : TaskRun :=
  if !(resource_state == "exists" || resource_state == "sync") then
    { result := some (TaskRes.ignoredT ("Resource state " ++ resource_state ++ " not processed")),
      retryRaised := false }
  else
    match _process_webhook_async channel_id with
    | Except.ok r => { result := some r, retryRaised := false }
    | Except.error _ => { result := none, retryRaised := false }

end WebhookTasks

namespace Webhook

/-- Model of the `GET /webhook/status/` endpoint: it calls
`calendar_service.get_webhook_status`, an attribute `CalendarService` does
not define, and its blanket except answers with an HTTPException(500). -/
def get_webhook_status (user_id : String) : Except PyErr String :=
  match pyGetattr "get_webhook_status" with
  | Except.ok _ =>
      Except.error (PyErr.exc ("model: unreachable continuation for user " ++ user_id))
  | Except.error e =>
      Except.error (PyErr.http 500 ("Failed to get webhook status: " ++ e.text))

end Webhook

/-- Boolean success test on a modelled Python result. -/
def isOkB {α : Type} : Except PyErr α → Bool
  | Except.ok _ => true
  | Except.error _ => false

/-- Sample confirmed event E1 of the concrete spec scenarios. -/
def ev1 : Event := ⟨"E1", "v1", "confirmed", "standup"⟩

/-- Sample confirmed event E2 of the concrete spec scenarios. -/
def ev2 : Event := ⟨"E2", "v1", "confirmed", "review"⟩

/-- E1 as an incremental sync returns it after its cancellation. -/
def ev1c : Event := ⟨"E1", "v1c", "cancelled", "standup"⟩

/-- World in which the provider answers 401 to every outbound attempt: both
the original request and every replay fail authorization. -/
def wAuthLoop : W :=
  ⟨fun _ => ⟨401, ApiBody.errBody "Invalid Credentials"⟩, 0, 0, none, ⟨none, [], none⟩⟩

/-- Script answering the first attempt with 403 and an error body whose text
contains `unauthorized`, and every later attempt with 200. -/
def remoteTextRetry : Nat → ApiResponse := fun n =>
  if n = 0 then ⟨403, ApiBody.errBody "unauthorized_client"⟩
  else ⟨200, ApiBody.listBody [] (some "T")⟩

/-- World for the text-driven retry execution: no response ever has
status 401. -/
def wTextRetry : W := ⟨remoteTextRetry, 0, 0, none, ⟨none, [], none⟩⟩

/-- Incremental-sync world holding events E1, E2 under cursor T1, in which
the provider rejects the cursor with a resource-gone (410) response. -/
def wCursorGone : W :=
  ⟨fun _ => ⟨410, ApiBody.errBody "Sync token is no longer valid, a full sync is required."⟩,
   0, 0, some (ResDict.listRes [ev1, ev2] (some "T1")),
   ⟨none, [("E1", ev1), ("E2", ev2)], some "T1"⟩⟩

/-- Concrete scenario B of the spec: store and cache hold E1, E2 with cursor
T1; the provider's incremental response carries E1 with status cancelled and
the new cursor T2. -/
def wScenarioB : W :=
  ⟨fun _ => ⟨200, ApiBody.listBody [ev1c] (some "T2")⟩, 0, 0,
   some (ResDict.listRes [ev1, ev2] (some "T1")),
   ⟨some (ResDict.listRes [ev1, ev2] (some "T1")), [("E1", ev1), ("E2", ev2)], some "T1"⟩⟩

/-- Concrete scenario C of the spec: the local copy of E2 (store and cache)
carries etag v1, the event changed remotely, and the provider rejects the
conditional PATCH with a precondition-failed (412) response. -/
def wScenarioC : W :=
  ⟨fun _ => ⟨412, ApiBody.errBody "Precondition Failed"⟩, 0, 0,
   some (ResDict.listRes [ev2] (some "T1")), ⟨none, [("E2", ev2)], some "T1"⟩⟩

/-- World for the conditional single-event GET: E1 is stored (etag v1) but
not cached, and the provider answers 304 with an empty body. -/
def wNotModified : W :=
  ⟨fun _ => ⟨304, ApiBody.noJson⟩, 0, 0,
   some (ResDict.listRes [ev1] (some "T1")), ⟨none, [], some "T1"⟩⟩

/-- World in which E1 is present in the single-event cache. -/
def wCacheHit : W :=
  ⟨fun _ => ⟨304, ApiBody.noJson⟩, 0, 0,
   some (ResDict.listRes [ev1] (some "T1")), ⟨none, [("E1", ev1)], some "T1"⟩⟩

/-- Script of a provider with no remote change: every list-changes call is
answered with an empty delta and cursor T2. -/
def remoteEmptyDelta : Nat → ApiResponse :=
  fun _ => ⟨200, ApiBody.listBody [] (some "T2")⟩

theorem StEx.bind_apply {σ α β : Type} (x : StEx σ α) (f : α → StEx σ β) (s : σ) :
    (x >>= f) s =
      match x s with
      | (Except.ok a, s1) => f a s1
      | (Except.error e, s1) => (Except.error e, s1) := rfl

theorem StEx.pure_apply {σ α : Type} (a : α) (s : σ) :
    (pure a : StEx σ α) s = (Except.ok a, s) := rfl

theorem replaceById_ids (u : Event) (l : List Event) :
    (replaceById u l).map Event.id = l.map Event.id := by
  induction l with
  | nil => rfl
  | cons e rest ih =>
      show (if e.id = u.id then u else e).id :: (replaceById u rest).map Event.id
          = e.id :: rest.map Event.id
      rw [ih]
      by_cases h : e.id = u.id
      · rw [if_pos h, h]
      · rw [if_neg h]

theorem foldl_replaceById_ids (us : List Event) (l : List Event) :
    (us.foldl (fun acc u => replaceById u acc) l).map Event.id = l.map Event.id := by
  induction us generalizing l with
  | nil => rfl
  | cons u rest ih =>
      show ((rest.foldl (fun acc u => replaceById u acc) (replaceById u l)).map Event.id)
          = l.map Event.id
      rw [ih (replaceById u l), replaceById_ids]

theorem update_items_preserves_ids (us : List Event) (s : W) :
    storeIds ((CalendarRepo.update_items us) s).2 = storeIds s := by
  cases s with
  | mk remote att refr store cache =>
      cases store with
      | none => rfl
      | some d =>
          cases d with
          | listRes items tok =>
              show some ((us.foldl (fun acc u => replaceById u acc) items).map Event.id)
                  = some (items.map Event.id)
              rw [foldl_replaceById_ids]
          | eventRes e => rfl
          | errRes m => rfl
          | noJsonRes c => rfl
          | successMsg => rfl

theorem tryCatch_const_handler_ok {σ α : Type} (x : StEx σ α) (c : α) (s : σ) :
    isOkB ((StEx.tryCatch x (fun _ => pure c)) s).1 = true := by
  rcases hx : x s with ⟨r, s1⟩
  cases r with
  | ok a => simp [StEx.tryCatch, hx, isOkB]
  | error e => simp [StEx.tryCatch, hx, isOkB, StEx.pure_apply]

set_option maxHeartbeats 1000000 in
theorem emptyDelta_sync_run (remote : Nat → ApiResponse) (att refr : Nat)
    (store : Option ResDict) (cacheEv : Option ResDict)
    (sg : List (String × Event)) (t t2 : String)
    (h0 : remote att = ⟨200, ApiBody.listBody [] (some t2)⟩)
    (ht : t.isEmpty = false) (ht2 : t2.isEmpty = false) :
    CalendarService.get_all_user_calendar_events 2 false false
        ⟨remote, att, refr, store, ⟨cacheEv, sg, some t⟩⟩
      = (Except.ok (ResDict.listRes [] (some t2)),
         ⟨remote, att + 1, refr, store.map (fun d => d.setSyncToken t2),
          ⟨cacheEv, sg, some t2⟩⟩) := by
  cases cacheEv <;>
    simp [CalendarService.get_all_user_calendar_events,
      CalendarService._make_google_api_request,
      CalendarService._handle_google_api_response, CalendarService._handle_401_error,
      CalendarRepo.get_access_and_email, CalendarCacheService.get_sync_token,
      CalendarCacheService.get_user_events, CalendarCacheService.cache_sync_token,
      CalendarRepo.update_synctoken, CalendarRepo.get_synctoken_if_exists,
      httpAttempt, parseBody, truthyOptStr, StEx.tryCatch, StEx.throw, StEx.modify,
      ResDict.statusCode?, ResDict.syncToken?, ResDict.items?, h0, ht, ht2,
      StEx.bind_apply, StEx.pure_apply]

/-- Claim C4: for every user state with a sync cursor present (any stored
items, any cached or stored cursor value, any cached list and single-event
entries) and a provider reporting no remote change (every list-changes call
answers an empty delta), invoking the incremental sync twice leaves the
stored event set unchanged — after the first call and after the second. -/
theorem incremental_sync_twice_preserves_store
    (remote : Nat → ApiResponse) (items : List Event) (stTok : Option String)
    (cacheEv : Option ResDict) (sg : List (String × Event)) (t t2 : String)
    (hremote : ∀ n, remote n = ⟨200, ApiBody.listBody [] (some t2)⟩)
    (ht : t.isEmpty = false) (ht2 : t2.isEmpty = false) :
    storeItems
        ((CalendarService.get_all_user_calendar_events 2 false false
          ((CalendarService.get_all_user_calendar_events 2 false false
            ⟨remote, 0, 0, some (ResDict.listRes items stTok), ⟨cacheEv, sg, some t⟩⟩).2)).2)
      = some items
      ∧ storeItems
          ((CalendarService.get_all_user_calendar_events 2 false false
            ⟨remote, 0, 0, some (ResDict.listRes items stTok), ⟨cacheEv, sg, some t⟩⟩).2)
        = some items := by
  have h1 := emptyDelta_sync_run remote 0 0 (some (ResDict.listRes items stTok))
    cacheEv sg t t2 (hremote 0) ht ht2
  have h2 := emptyDelta_sync_run remote 1 0 (some (ResDict.listRes items (some t2)))
    cacheEv sg t2 t2 (hremote 1) ht2 ht2
  simp [h1, ResDict.setSyncToken, h2, storeItems, ResDict.items?]

/-- Witness for claim C4 at a concrete state: events E1, E2 stored under
cursor T1, empty cache, provider answering every call with an empty delta. -/
theorem incremental_sync_twice_preserves_store_witness :
    storeItems
        ((CalendarService.get_all_user_calendar_events 2 false false
          ((CalendarService.get_all_user_calendar_events 2 false false
            ⟨remoteEmptyDelta, 0, 0, some (ResDict.listRes [ev1, ev2] (some "T1")),
             ⟨none, [], some "T1"⟩⟩).2)).2)
      = some [ev1, ev2]
      ∧ storeItems
          ((CalendarService.get_all_user_calendar_events 2 false false
            ⟨remoteEmptyDelta, 0, 0, some (ResDict.listRes [ev1, ev2] (some "T1")),
             ⟨none, [], some "T1"⟩⟩).2)
        = some [ev1, ev2] :=
  incremental_sync_twice_preserves_store remoteEmptyDelta [ev1, ev2] (some "T1")
    none [] "T1" "T2" (fun _ => rfl) rfl rfl

/-- Claim C1: on a resource-gone (410) answer to the list-changes call the
source raises the generic `HTTPException(410, detail)` from
`_handle_google_api_response` before the `status_code == 410` check of
`get_all_user_calendar_events` can run: the call makes exactly one outbound
attempt, performs no automatic full resync, leaves the store untouched and
propagates the 410 error instead of returning a resync result. -/
theorem cursor_gone_raises_instead_of_resync :
    (CalendarService.get_all_user_calendar_events 2 false false wCursorGone).1
        = Except.error
            (PyErr.http 410 "Sync token is no longer valid, a full sync is required.")
      ∧ (CalendarService.get_all_user_calendar_events 2 false false wCursorGone).2.attempts = 1
      ∧ (CalendarService.get_all_user_calendar_events 2 false false wCursorGone).2.store
          = wCursorGone.store
      ∧ (CalendarService.get_all_user_calendar_events 2 false false wCursorGone).2.cache.syncToken
          = some "T1" :=
  ⟨rfl, rfl, rfl, rfl⟩

/-- Claim C2 (counterexample): in concrete scenario B the incremental sync
leaves the store holding E1 (with status cancelled) and E2 — not the claimed
`\x7bE2\x7d`. -/
theorem scenarioB_store_keeps_cancelled :
    storeItems (CalendarService.get_all_user_calendar_events 2 false false wScenarioB).2
        = some [ev1c, ev2]
      ∧ decide (some [ev1c, ev2] = (some [ev2] : Option (List Event))) = false :=
  ⟨rfl, by decide⟩

/-- Claim C2 (amended): during an incremental sync, returned items are
applied to the persistent store strictly in place — `update_items` preserves
the stored event ids, deleting and inserting nothing, so a cancelled item
stays in the store with its status set to cancelled — while the cache removes
cancelled items and upserts the rest; scenario B therefore ends with the
store holding E1 (cancelled) and E2, the cached list holding exactly E2, E1's
single-event entry gone, and T2 as the cached cursor. -/
theorem incremental_cancel_removed_from_cache_only :
    (∀ (us : List Event) (s : W), storeIds ((CalendarRepo.update_items us) s).2 = storeIds s)
      ∧ storeItems (CalendarService.get_all_user_calendar_events 2 false false wScenarioB).2
          = some [ev1c, ev2]
      ∧ (CalendarService.get_all_user_calendar_events 2 false false wScenarioB).2.cache.events
          = some (ResDict.listRes [ev2] (some "T1"))
      ∧ (CalendarService.get_all_user_calendar_events 2 false false wScenarioB).2.cache.single
          = [("E2", ev2)]
      ∧ (CalendarService.get_all_user_calendar_events 2 false false wScenarioB).2.cache.syncToken
          = some "T2" :=
  ⟨update_items_preserves_ids, rfl, rfl, rfl, rfl⟩

/-- Claim C3: when the conditional PATCH is answered 412, the generic raise
of `_handle_google_api_response` fires first and `update_event`'s blanket
`except Exception` converts it into an HTTPException(500) whose detail wraps
the 412 — the dedicated 409-conflict branch is unreachable; the store and the
cache are left unchanged and the PATCH is not retried (one attempt). -/
theorem conflict_patch_answers_500_store_unchanged :
    (CalendarService.update_event 2 "E2" [("summary", "x")] wScenarioC).1
        = Except.error (PyErr.http 500 "Failed to update event: 412: Precondition Failed")
      ∧ (CalendarService.update_event 2 "E2" [("summary", "x")] wScenarioC).2.store
          = wScenarioC.store
      ∧ (CalendarService.update_event 2 "E2" [("summary", "x")] wScenarioC).2.cache.single
          = wScenarioC.cache.single
      ∧ (CalendarService.update_event 2 "E2" [("summary", "x")] wScenarioC).2.attempts = 1 :=
  ⟨rfl, rfl, rfl, rfl⟩

/-- Claim C5: when both the original request and the post-refresh replay are
answered 401, the terminal `Authentication failed after token refresh
attempt` error re-enters the outer frame's text-matching except clause
(its text contains `401`), so the source refreshes the token twice and makes
three outbound attempts before the terminal 401 error propagates — not the
claimed single refresh-and-replay. -/
theorem persistent_401_double_refresh :
    (CalendarService._make_google_api_request 5 0 wAuthLoop).1
        = Except.error CalendarService.authFailed
      ∧ (CalendarService._make_google_api_request 5 0 wAuthLoop).2.refreshes = 2
      ∧ (CalendarService._make_google_api_request 5 0 wAuthLoop).2.attempts = 3 :=
  ⟨rfl, rfl, rfl⟩

/-- Claim C6: an execution in which no response ever has status 401, yet a
token refresh-and-retry is triggered — the first attempt's 403 error text
contains `unauthorized`, the except clause of `_make_google_api_request`
matches it and refreshes once, and the replay succeeds. -/
theorem text_matched_retry_execution :
    (∀ n : Nat, ((remoteTextRetry n).status == 401) = false)
      ∧ (CalendarService._make_google_api_request 5 0 wTextRetry).1
          = Except.ok (ResDict.listRes [] (some "T"))
      ∧ (CalendarService._make_google_api_request 5 0 wTextRetry).2.refreshes = 1
      ∧ (CalendarService._make_google_api_request 5 0 wTextRetry).2.attempts = 2 := by
  refine ⟨?_, rfl, rfl, rfl⟩
  intro n
  cases n with
  | zero => rfl
  | succ m => rfl

/-- Claim C7: a not-modified (304) provider response is first normalized into
the `status_code` marker dict but then raised as `HTTPException(304, ...)` by
the generic status check of `_handle_google_api_response`, so
`get_event_from_id` propagates an error instead of returning the stored copy;
and on a cache hit the `from_cache` tag is overwritten by the event's own
`status` key, so the call returns the event's status instead of the tag. -/
theorem not_modified_response_raises :
    (CalendarService.get_event_from_id 2 "E1" wNotModified).1
        = Except.error (PyErr.http 304 "message: No JSON response, status_code: 304")
      ∧ (CalendarService.get_event_from_id 2 "E1" wCacheHit).1
          = Except.ok ("confirmed", ResDict.eventRes ev1) :=
  ⟨rfl, rfl⟩

/-- Claim C8: a request missing the channel-id header is answered with an
HTTPException(500) wrapping the internal 400 — the blanket `except Exception`
of the endpoint converts its own client-error raise — while unrecognized
resource states are answered `ignored` and recognized ones are queued and
answered `accepted`. -/
theorem webhook_missing_header_answers_500 :
    Webhook.google_calendar_webhook none (some "exists")
        = Except.error (PyErr.http 500 "Webhook processing failed: 400: Missing required headers")
      ∧ Webhook.google_calendar_webhook (some "chan-1") (some "not_exists")
          = Except.ok (WebhookAnswer.ignoredA "Resource state not_exists not processed", none)
      ∧ Webhook.google_calendar_webhook (some "chan-1") (some "exists")
          = Except.ok (WebhookAnswer.acceptedA "chan-1", some ("chan-1", "exists")) :=
  ⟨rfl, rfl, rfl⟩

/-- Claim C10 (counterexample): a queued notification with resource state
`exists` does not fail after bounded retries — the AttributeError raised by
the coroutine is swallowed by the bare except around the event-loop call, so
the task returns None and never raises `self.retry`. -/
theorem webhook_task_swallows_failure_no_retry :
    WebhookTasks.process_calendar_webhook "chan-1" "exists"
        = { result := none, retryRaised := false } := rfl

/-- Claim C10 (amended): `CalendarService` defines none of
`get_user_by_channel_id`, `handle_calendar_change_notification`,
`get_webhook_status`; the webhook coroutine therefore raises AttributeError
before any sync work, every queued notification passing the resource-state
filter completes with no result, no incremental sync and no retry, and every
webhook-status request fails with an internal 500 error. -/
theorem webhook_methods_missing_effects :
    (["get_user_by_channel_id", "handle_calendar_change_notification",
        "get_webhook_status"].all
          (fun n => !(calendarServiceMethods.contains n))) = true
      ∧ WebhookTasks._process_webhook_async "chan-1"
          = Except.error (PyErr.exc
              "AttributeError: CalendarService object has no attribute get_user_by_channel_id")
      ∧ WebhookTasks.process_calendar_webhook "chan-1" "exists"
          = { result := none, retryRaised := false }
      ∧ WebhookTasks.process_calendar_webhook "chan-1" "sync"
          = { result := none, retryRaised := false }
      ∧ Webhook.get_webhook_status "user-1"
          = Except.error (PyErr.http 500
              "Failed to get webhook status: AttributeError: CalendarService object has no attribute get_webhook_status") :=
  ⟨rfl, rfl, rfl, rfl, rfl⟩

/-- Claim C9: every public cache operation is fail-open — for every backend
state it returns a value rather than raising, and when the backend fails it
returns the benign default (`false` for writes and invalidation, `none` for
reads), so callers observe a failure only as a cache miss. -/
theorem cache_operations_fail_open :
    ∀ (w : RedisW) (uid eid t : String) (d : ResDict),
      isOkB ((RedisModel.cache_user_events uid d) w).1 = true
      ∧ isOkB ((RedisModel.get_user_events uid) w).1 = true
      ∧ isOkB ((RedisModel.cache_single_event uid d) w).1 = true
      ∧ isOkB ((RedisModel.get_single_event uid eid) w).1 = true
      ∧ isOkB ((RedisModel.update_event_in_cache uid d) w).1 = true
      ∧ isOkB ((RedisModel.remove_event_from_cache uid eid) w).1 = true
      ∧ isOkB ((RedisModel.cache_sync_token uid t) w).1 = true
      ∧ isOkB ((RedisModel.get_sync_token uid) w).1 = true
      ∧ isOkB ((RedisModel.cache_user_calendar_list uid d) w).1 = true
      ∧ isOkB ((RedisModel.get_user_calendar_list uid) w).1 = true
      ∧ isOkB ((RedisModel.invalidate_user_cache uid) w).1 = true
      ∧ (RedisModel.cache_user_events uid d { w with failAt := fun _ => true }).1
          = Except.ok false
      ∧ (RedisModel.get_user_events uid { w with failAt := fun _ => true }).1
          = Except.ok none
      ∧ (RedisModel.cache_single_event uid d { w with failAt := fun _ => true }).1
          = Except.ok false
      ∧ (RedisModel.get_single_event uid eid { w with failAt := fun _ => true }).1
          = Except.ok none
      ∧ (RedisModel.update_event_in_cache uid d { w with failAt := fun _ => true }).1
          = Except.ok false
      ∧ (RedisModel.remove_event_from_cache uid eid { w with failAt := fun _ => true }).1
          = Except.ok false
      ∧ (RedisModel.cache_sync_token uid t { w with failAt := fun _ => true }).1
          = Except.ok false
      ∧ (RedisModel.get_sync_token uid { w with failAt := fun _ => true }).1
          = Except.ok none
      ∧ (RedisModel.cache_user_calendar_list uid d { w with failAt := fun _ => true }).1
          = Except.ok false
      ∧ (RedisModel.get_user_calendar_list uid { w with failAt := fun _ => true }).1
          = Except.ok none
      ∧ (RedisModel.invalidate_user_cache uid { w with failAt := fun _ => true }).1
          = Except.ok false := by
  intro w uid eid t d
  refine ⟨tryCatch_const_handler_ok _ _ _, tryCatch_const_handler_ok _ _ _,
    tryCatch_const_handler_ok _ _ _, tryCatch_const_handler_ok _ _ _,
    tryCatch_const_handler_ok _ _ _, tryCatch_const_handler_ok _ _ _,
    tryCatch_const_handler_ok _ _ _, tryCatch_const_handler_ok _ _ _,
    tryCatch_const_handler_ok _ _ _, tryCatch_const_handler_ok _ _ _,
    tryCatch_const_handler_ok _ _ _, rfl, rfl, ?_, rfl, ?_, rfl, rfl, rfl, rfl, rfl, rfl⟩
  · cases d <;> rfl
  · cases d <;> rfl

end AICal
